import Mathlib

/-
Verification of the SourceKit-LSP supervisor
(src/solidlsp/language_servers/swift_language_server/swift_language_server.py).

Shallow embedding: the mutable session attributes (the two threading.Event
latches `analysis_complete` and `completions_available`, plus the
`found_source_files` flag) become a record of booleans; each LSP message
handler becomes a pure state transformer that also returns the log lines it
emits; `_start_server` becomes a function from the initialize-response
capability key set and the session state observed at the readiness wait to an
outcome record (an `Except` result, the ordered trace of protocol actions, and
the log lines).
-/

namespace SwiftLS

/-- Whether the character list `s` starts with the character list `p`. -/
def charsStartWith : List Char → List Char → Bool
  | [], _ => true
  | _ :: _, [] => false
  | p :: ps, c :: cs => p == c && charsStartWith ps cs

/-- Whether the character list `pat` occurs contiguously inside `s`. -/
def charsContain : List Char → List Char → Bool
  | pat, [] => pat.isEmpty
  | pat, c :: cs => charsStartWith pat (c :: cs) || charsContain pat cs

/-- Python's substring test `pat in s` for strings. -/
def strContainsSub (s pat : String) : Bool :=
  charsContain pat.data s.data

/-- Python's `text.lower()`: lowercase each character. -/
def strToLower (s : String) : String :=
  ⟨s.data.map Char.toLower⟩

/-- Python's `any(keyword in text for keyword in keywords)`. -/
def anyKeyword (keywords : List String) (text : String) : Bool :=
  keywords.any (fun keyword => strContainsSub text keyword)

/-- Severity of a log line; Python's logging.INFO and logging.WARNING. -/
inductive LogLevel where
  | info
  | warning
deriving DecidableEq, Repr

/-- One `self.logger.log(message, level)` call. -/
abbrev LogEntry := String × LogLevel

/-- The mutable session attributes the handlers and `_start_server` touch:
the `analysis_complete` event (line 41), the inherited `completions_available`
event, and the `found_source_files` flag (line 42).  A set threading.Event is
modelled as the field being `true`. -/
structure ServerState where
  analysis_complete : Bool
  completions_available : Bool
  found_source_files : Bool
deriving DecidableEq, Repr

/-- The state right after `__init__`: nothing set. -/
def initState : ServerState :=
  { analysis_complete := false, completions_available := false, found_source_files := false }

/-- The state with every signal set. -/
def allSet : ServerState :=
  { analysis_complete := true, completions_available := true, found_source_files := true }

/-- Payload of a window/logMessage notification; `msg.get("message", "")`. -/
structure LogMessageParams where
  message : String
deriving DecidableEq, Repr

/-- Payload of a window/showMessage notification; the handler reads
`msg.get("message", "")` and `msg.get("type", 1)`. -/
structure ShowMessageParams where
  message : String
  type : Nat
deriving DecidableEq, Repr

/-- The `value` field of a $/progress notification: `value.get("kind", "")`
and `value.get("message", "")`. -/
structure ProgressValue where
  kind : String
  message : String
deriving DecidableEq, Repr

/-- Payload of a $/progress notification; `params.get("value", {})`. -/
structure ProgressParams where
  value : ProgressValue
deriving DecidableEq, Repr

/-- The completion keywords of `window_log_message` (lines 263-269). -/
def logMessageKeywords : List String :=
  ["indexing complete", "finished indexing", "build complete", "compilation finished",
   "swift package resolved"]

/-- The completion keywords of `window_show_message` (line 286). -/
def showMessageKeywords : List String :=
  ["package resolution complete", "build succeeded", "indexing finished"]

/-- The progress-end keywords of `progress_notification` (line 301). -/
def progressEndKeywords : List String :=
  ["indexing", "building", "resolving"]

/-- The window/logMessage handler (lines 253-274). -/
def window_log_message (msg : LogMessageParams) (s : ServerState) :
    ServerState × List LogEntry :=
  let message_text := msg.message
  let logs : List LogEntry := [(s!"LSP: window/logMessage: {message_text}", LogLevel.info)]
  if anyKeyword logMessageKeywords (strToLower message_text) then
    ({ analysis_complete := true, completions_available := true, found_source_files := true },
     logs ++ [("SourceKit-LSP workspace analysis complete", LogLevel.info)])
  else
    (s, logs)

/-- The window/showMessage handler (lines 276-291). -/
def window_show_message (msg : ShowMessageParams) (s : ServerState) :
    ServerState × List LogEntry :=
  let message_text := msg.message
  let message_type := msg.type
  let logs : List LogEntry :=
    [(s!"LSP: window/showMessage (type={message_type}): {message_text}", LogLevel.info)]
  if anyKeyword showMessageKeywords (strToLower message_text) then
    let logs := logs ++ [("SourceKit-LSP analysis detected via showMessage", LogLevel.info)]
    if !s.found_source_files then
      ({ analysis_complete := true, completions_available := true, found_source_files := true },
       logs)
    else
      (s, logs)
  else
    (s, logs)

/-- The $/progress handler (lines 293-306). -/
def progress_notification (params : ProgressParams) (s : ServerState) :
    ServerState × List LogEntry :=
  let value := params.value
  let kind := value.kind
  let message := value.message
  if kind == "end" && anyKeyword progressEndKeywords (strToLower message) then
    let logs : List LogEntry := [(s!"SourceKit-LSP progress end: {message}", LogLevel.info)]
    if !s.found_source_files then
      ({ analysis_complete := true, completions_available := true, found_source_files := true },
       logs)
    else
      (s, logs)
  else
    (s, [])

/-- A configuration object in a workspace/configuration reply; the code uses
the empty dict `{}`, modelled as the empty association list. -/
abbrev ConfigObject := List (String × String)

/-- Payload of a workspace/configuration request; `params.get("items", [])`,
with each requested item kept opaque as a string. -/
structure ConfigurationParams where
  items : List String
deriving DecidableEq, Repr

/-- The workspace/configuration handler (lines 308-313): `[{}] * len(items)`. -/
def workspace_configuration_handler (params : ConfigurationParams) : List ConfigObject :=
  List.replicate params.items.length ([] : ConfigObject)

/-- The workspace/executeClientCommand handler (lines 247-248): returns `[]`. -/
def execute_client_command_handler (_params : ConfigurationParams) : List ConfigObject :=
  []

/-- The Swift-specific ignored directory names (lines 46-55). -/
def swiftIgnoredDirnames : List String :=
  [".build", ".swiftpm", "build", "DerivedData", ".DS_Store", "xcuserdata",
   "*.xcworkspace", "*.xcodeproj"]

/-- `is_ignored_dirname` (lines 44-55): the superclass's verdict, or Python
list membership `dirname in [...]` (exact string equality, no glob matching).
The superclass lives outside this unit, so its verdict is a parameter. -/
def is_ignored_dirname (superIgnores : String → Bool) (dirname : String) : Bool :=
  superIgnores dirname || decide (dirname ∈ swiftIgnoredDirnames)

/-- A workspaceFolders entry (lines 222-224). -/
structure WorkspaceFolder where
  uri : String
  name : String
deriving DecidableEq, Repr

/-- The SourceKit-LSP specific initializationOptions mapping (lines 66-71). -/
structure InitOptions where
  fallbackBuildSystem : String
  backgroundIndexing : Bool
  completionMaxResults : Nat
  completionServerSideFiltering : Bool
deriving DecidableEq, Repr

/-- The client capability advertisement (lines 72-221): a literal constant
document with no derived logic, kept opaque as a single token. -/
inductive CapabilitiesDoc where
  | staticClientCapabilities
deriving DecidableEq, Repr

/-- The parameter document `_get_initialize_params` builds (lines 62-225). -/
structure InitParams where
  processId : Nat
  rootPath : String
  rootUri : String
  initializationOptions : InitOptions
  capabilities : CapabilitiesDoc
  workspaceFolders : List WorkspaceFolder
deriving DecidableEq, Repr

/-- Models `pathlib.Path(p).as_uri()`: a pure function of the path. -/
def asUri (p : String) : String :=
  "file://" ++ p

/-- Models `os.path.basename(p)`: the component after the last slash. -/
def basename (p : String) : String :=
  (p.splitOn "/").getLastD ""

/-- `_get_initialize_params` (lines 57-227).  The call `os.getpid()` on
line 63 reads the ambient process id, made explicit here as the `pid`
parameter. -/
def getInitParams (pid : Nat) (repository_absolute_path : String) : InitParams :=
  { processId := pid
    rootPath := repository_absolute_path
    rootUri := asUri repository_absolute_path
    initializationOptions :=
      { fallbackBuildSystem := "swiftpm"
        backgroundIndexing := true
        completionMaxResults := 200
        completionServerSideFiltering := true }
    capabilities := CapabilitiesDoc.staticClientCapabilities
    workspaceFolders :=
      [{ uri := asUri repository_absolute_path, name := basename repository_absolute_path }] }

/-- The externally visible protocol actions `_start_server` performs, in
order: starting the child process (line 325), sending the initialize request
(line 334), receiving its response (the same blocking call returning),
sending the initialized notification (line 351), and waiting on the
readiness event (line 359). -/
inductive Action where
  | startProcess
  | sendInitRequest
  | recvInitResponse
  | sendInitDone
  | waitReadiness
deriving DecidableEq, Repr

deriving instance DecidableEq for Except

/-- Everything observable about one `_start_server` run: the returned or
raised result, the ordered action trace, and the log lines. -/
structure StartOutcome where
  result : Except String ServerState
  actions : List Action
  logs : List LogEntry
deriving DecidableEq, Repr

/-- `_start_server` (lines 324-365), after the handler registrations.
`caps` is the key set of the response's "capabilities" mapping (line 338);
`s` is the session state observed when the readiness wait returns (the
handlers run concurrently and may have set the events by then): the wait on
line 359 returns `s.analysis_complete`.  The `assert` on line 339 raising
AssertionError is the `Except.error` case. -/
def startServer (caps : List String) (s : ServerState) : StartOutcome :=
  let logs0 : List LogEntry := [("Starting sourcekit-lsp server process", LogLevel.info)]
  let acts0 : List Action := [Action.startProcess]
  let logs1 := logs0 ++
    [("Sending initialize request from LSP client to SourceKit-LSP server and awaiting response",
      LogLevel.info)]
  let acts1 := acts0 ++ [Action.sendInitRequest, Action.recvInitResponse]
  let logs2 := logs1 ++
    [("Received initialize response from SourceKit-LSP server", LogLevel.info)]
  if decide ("textDocumentSync" ∈ caps) then
    let logs3 := logs2 ++
      (if decide ("completionProvider" ∈ caps) then []
       else [("Warning: SourceKit-LSP did not advertise completionProvider capability",
              LogLevel.warning)]) ++
      (if decide ("definitionProvider" ∈ caps) then []
       else [("Warning: SourceKit-LSP did not advertise definitionProvider capability",
              LogLevel.warning)])
    let acts2 := acts1 ++ [Action.sendInitDone]
    let logs4 := logs3 ++
      [("Waiting for SourceKit-LSP to complete initial workspace analysis...", LogLevel.info)]
    let acts3 := acts2 ++ [Action.waitReadiness]
    if s.analysis_complete then
      { result := Except.ok s
        actions := acts3
        logs := logs4 ++
          [("SourceKit-LSP initial analysis complete, server ready", LogLevel.info)] }
    else
      { result := Except.ok
          { s with analysis_complete := true, completions_available := true }
        actions := acts3
        logs := logs4 ++
          [("Timeout (15.0s) waiting for SourceKit-LSP analysis completion, proceeding anyway",
            LogLevel.warning)] }
  else
    { result := Except.error "SourceKit-LSP must support textDocumentSync"
      actions := acts1
      logs := logs2 }

/-- An inbound server-initiated notification routed to one of the three
readiness handlers. -/
inductive Notification where
  | logMsg (msg : LogMessageParams)
  | showMsg (msg : ShowMessageParams)
  | progress (params : ProgressParams)
deriving DecidableEq, Repr

/-- Deliver one notification to its handler; state effect only. -/
def dispatch (n : Notification) (s : ServerState) : ServerState :=
  match n with
  | .logMsg m => (window_log_message m s).1
  | .showMsg m => (window_show_message m s).1
  | .progress p => (progress_notification p s).1

/-- Whether a notification matches its handler's heuristic keyword rule. -/
def matchesRule (n : Notification) : Bool :=
  match n with
  | .logMsg m => anyKeyword logMessageKeywords (strToLower m.message)
  | .showMsg m => anyKeyword showMessageKeywords (strToLower m.message)
  | .progress p =>
      p.value.kind == "end" && anyKeyword progressEndKeywords (strToLower p.value.message)

/-- Deliver a sequence of notifications to the handlers, starting from the
fresh session state. -/
def runHandlers (ns : List Notification) : ServerState :=
  ns.foldl (fun s n => dispatch n s) initState

/-- Pointwise ordering on session states: no set signal becomes unset. -/
def stateLe (s t : ServerState) : Prop :=
  (s.analysis_complete = true → t.analysis_complete = true) ∧
  (s.completions_available = true → t.completions_available = true) ∧
  (s.found_source_files = true → t.found_source_files = true)

lemma dispatch_allSet (n : Notification) : dispatch n allSet = allSet := by
  cases n with
  | logMsg m =>
      simp only [dispatch, window_log_message]
      split <;> rfl
  | showMsg m =>
      simp only [dispatch, window_show_message]
      split <;> rfl
  | progress p =>
      simp only [dispatch, progress_notification]
      split <;> rfl

lemma dispatch_initState (n : Notification) :
    dispatch n initState = if matchesRule n then allSet else initState := by
  cases n with
  | logMsg m =>
      simp only [dispatch, window_log_message, matchesRule]
      split <;> rename_i h <;> simp [h, allSet, initState]
  | showMsg m =>
      simp only [dispatch, window_show_message, matchesRule]
      split <;> rename_i h <;> simp [h, allSet, initState]
  | progress p =>
      simp only [dispatch, progress_notification, matchesRule]
      split <;> rename_i h <;> simp [h, allSet, initState]

lemma foldl_dispatch_allSet (ns : List Notification) :
    ns.foldl (fun s n => dispatch n s) allSet = allSet := by
  induction ns with
  | nil => rfl
  | cons n ns ih => simp [List.foldl_cons, dispatch_allSet, ih]

lemma runHandlers_eq (ns : List Notification) :
    runHandlers ns = if ns.any matchesRule then allSet else initState := by
  induction ns with
  | nil => rfl
  | cons n ns ih =>
      have hstep : runHandlers (n :: ns) =
          List.foldl (fun s m => dispatch m s) (dispatch n initState) ns := rfl
      rw [hstep, dispatch_initState]
      cases h : matchesRule n with
      | true => simp [h, foldl_dispatch_allSet]
      | false =>
          simp only [h, if_false, Bool.false_eq_true, List.any_cons, Bool.false_or]
          exact ih

lemma dispatch_mono (n : Notification) (s : ServerState) : stateLe s (dispatch n s) := by
  cases n with
  | logMsg m =>
      simp only [dispatch, window_log_message]
      split
      · exact ⟨fun _ => rfl, fun _ => rfl, fun _ => rfl⟩
      · exact ⟨id, id, id⟩
  | showMsg m =>
      simp only [dispatch, window_show_message]
      split
      · split
        · exact ⟨fun _ => rfl, fun _ => rfl, fun _ => rfl⟩
        · exact ⟨id, id, id⟩
      · exact ⟨id, id, id⟩
  | progress p =>
      simp only [dispatch, progress_notification]
      split
      · split
        · exact ⟨fun _ => rfl, fun _ => rfl, fun _ => rfl⟩
        · exact ⟨id, id, id⟩
      · exact ⟨id, id, id⟩

lemma dispatch_found_of_matches (n : Notification) (s : ServerState)
    (hm : matchesRule n = true) : (dispatch n s).found_source_files = true := by
  cases n with
  | logMsg m =>
      simp only [matchesRule] at hm
      simp [dispatch, window_log_message, hm]
  | showMsg m =>
      simp only [matchesRule] at hm
      by_cases hf : s.found_source_files <;>
        simp [dispatch, window_show_message, hm, hf]
  | progress p =>
      simp only [matchesRule, Bool.and_eq_true] at hm
      by_cases hf : s.found_source_files <;>
        simp [dispatch, progress_notification, hm.1, hm.2, hf]

lemma dispatch_completions (n : Notification) (s : ServerState)
    (h : s.analysis_complete = true → s.completions_available = true)
    (ha : (dispatch n s).analysis_complete = true) :
    (dispatch n s).completions_available = true := by
  cases n with
  | logMsg m =>
      by_cases hk : anyKeyword logMessageKeywords (strToLower m.message) = true
      · simp [dispatch, window_log_message, hk]
      · simp [dispatch, window_log_message, hk] at ha ⊢
        exact h ha
  | showMsg m =>
      by_cases hk : anyKeyword showMessageKeywords (strToLower m.message) = true
      · by_cases hf : s.found_source_files
        · simp [dispatch, window_show_message, hk, hf] at ha ⊢
          exact h ha
        · simp [dispatch, window_show_message, hk, hf]
      · simp [dispatch, window_show_message, hk] at ha ⊢
        exact h ha
  | progress p =>
      by_cases hk : p.value.kind = "end" ∧
          anyKeyword progressEndKeywords (strToLower p.value.message) = true
      · by_cases hf : s.found_source_files
        · simp [dispatch, progress_notification, hk.1, hk.2, hf] at ha ⊢
          exact h ha
        · simp [dispatch, progress_notification, hk.1, hk.2, hf]
      · simp [dispatch, progress_notification, hk] at ha ⊢
        exact h ha

/-- C1: if no readiness-matching message ever arrives (the analysis-complete
event is still unset when the wait expires), `_start_server` still returns
normally with no exception: the timeout branch force-sets the readiness
signal and the completions signal and logs a warning. -/
theorem timeout_fallback_reaches_ready (caps : List String) (s : ServerState)
    (hc : "textDocumentSync" ∈ caps) (hs : s.analysis_complete = false) :
    (startServer caps s).result =
      Except.ok { s with analysis_complete := true, completions_available := true }
  ∧ ("Timeout (15.0s) waiting for SourceKit-LSP analysis completion, proceeding anyway",
      LogLevel.warning) ∈ (startServer caps s).logs := by
  constructor <;> simp [startServer, hc, hs]

/-- Witness for C1 at a concrete capability list and the fresh state. -/
theorem timeout_fallback_reaches_ready_witness :
    (startServer ["textDocumentSync"] initState).result =
      Except.ok { initState with analysis_complete := true, completions_available := true }
  ∧ ("Timeout (15.0s) waiting for SourceKit-LSP analysis completion, proceeding anyway",
      LogLevel.warning) ∈ (startServer ["textDocumentSync"] initState).logs :=
  timeout_fallback_reaches_ready ["textDocumentSync"] initState (by decide) rfl

/-- C2: when the initialize response's capabilities lack "textDocumentSync",
`_start_server` raises (the assert on line 339) before the initialized
notification is sent and before the readiness wait begins, and the initialize
request is sent exactly once (no retry). -/
theorem missing_sync_fails_before_wait (caps : List String) (s : ServerState)
    (hc : "textDocumentSync" ∉ caps) :
    (startServer caps s).result = Except.error "SourceKit-LSP must support textDocumentSync"
  ∧ Action.sendInitDone ∉ (startServer caps s).actions
  ∧ Action.waitReadiness ∉ (startServer caps s).actions
  ∧ (startServer caps s).actions.count Action.sendInitRequest = 1 := by
  have hact : (startServer caps s).actions =
      [Action.startProcess, Action.sendInitRequest, Action.recvInitResponse] := by
    simp [startServer, hc]
  refine ⟨by simp [startServer, hc], ?_, ?_, ?_⟩ <;> rw [hact] <;> decide

/-- Witness for C2 at an empty capability list and the fresh state. -/
theorem missing_sync_fails_before_wait_witness :
    (startServer [] initState).result = Except.error "SourceKit-LSP must support textDocumentSync"
  ∧ Action.sendInitDone ∉ (startServer [] initState).actions
  ∧ Action.waitReadiness ∉ (startServer [] initState).actions
  ∧ (startServer [] initState).actions.count Action.sendInitRequest = 1 :=
  missing_sync_fails_before_wait [] initState (by decide)

/-- C4: in every run of `_start_server`, the initialized notification is sent
only when the capability validation succeeded, and only at a point of the
action trace strictly after the initialize response was received. -/
theorem init_done_only_after_validated_response (caps : List String) (s : ServerState)
    (h : Action.sendInitDone ∈ (startServer caps s).actions) :
    "textDocumentSync" ∈ caps
  ∧ ∃ pre post, (startServer caps s).actions = pre ++ Action.sendInitDone :: post
      ∧ Action.recvInitResponse ∈ pre ∧ Action.sendInitDone ∉ pre := by
  by_cases hc : "textDocumentSync" ∈ caps
  · have hact : (startServer caps s).actions =
        [Action.startProcess, Action.sendInitRequest, Action.recvInitResponse,
         Action.sendInitDone, Action.waitReadiness] := by
      by_cases hs : s.analysis_complete = true <;> simp [startServer, hc, hs]
    refine ⟨hc, [Action.startProcess, Action.sendInitRequest, Action.recvInitResponse],
      [Action.waitReadiness], ?_, by decide, by decide⟩
    rw [hact]
    rfl
  · exfalso
    have hact : (startServer caps s).actions =
        [Action.startProcess, Action.sendInitRequest, Action.recvInitResponse] := by
      simp [startServer, hc]
    rw [hact] at h
    exact absurd h (by decide)

/-- Witness for C4 at a concrete capability list and the fresh state. -/
theorem init_done_only_after_validated_response_witness :
    "textDocumentSync" ∈ ["textDocumentSync"]
  ∧ ∃ pre post, (startServer ["textDocumentSync"] initState).actions =
        pre ++ Action.sendInitDone :: post
      ∧ Action.recvInitResponse ∈ pre ∧ Action.sendInitDone ∉ pre :=
  init_done_only_after_validated_response ["textDocumentSync"] initState (by decide)

/-- C3: the readiness signal is a monotonic idempotent latch.  For every
sequence of notifications delivered to the three handlers from the fresh
session state: no handler ever lowers a set signal, once the signal is set
any further delivery leaves the whole session state unchanged, and the
signal is set exactly when some delivered notification matched a keyword
rule. -/
theorem readiness_signal_monotone_idempotent_latch
    (ns : List Notification) (n : Notification) :
    stateLe (runHandlers ns) (dispatch n (runHandlers ns))
  ∧ ((runHandlers ns).analysis_complete = true →
      dispatch n (runHandlers ns) = runHandlers ns)
  ∧ ((runHandlers ns).analysis_complete = true ↔ ∃ m ∈ ns, matchesRule m = true) := by
  refine ⟨dispatch_mono n (runHandlers ns), ?_, ?_⟩
  · intro hset
    rw [runHandlers_eq] at hset ⊢
    by_cases ha : ns.any matchesRule = true
    · rw [if_pos ha] at hset ⊢
      exact dispatch_allSet n
    · rw [if_neg ha] at hset
      exact absurd hset (by decide)
  · rw [runHandlers_eq]
    by_cases ha : ns.any matchesRule = true
    · simp only [if_pos ha, allSet, true_iff]
      simpa [List.any_eq_true] using ha
    · simp only [if_neg ha, initState, Bool.false_eq_true, false_iff]
      intro hex
      exact ha (by simpa [List.any_eq_true] using hex)

/-- Witness for C3 at a concrete matching notification. -/
theorem readiness_signal_latch_witness :
    dispatch (Notification.logMsg { message := "build complete" })
        (runHandlers [Notification.logMsg { message := "build complete" }]) =
      runHandlers [Notification.logMsg { message := "build complete" }] :=
  (readiness_signal_monotone_idempotent_latch
      [Notification.logMsg { message := "build complete" }]
      (Notification.logMsg { message := "build complete" })).2.1 (by decide)

/-- C5: a $/progress notification whose value has kind "end" and whose
message contains one of the progress keywords sets the readiness signal (in
any session state that has not recorded source files, or where the signal is
already set); any kind other than "end" leaves the state unchanged. -/
theorem progress_end_keyword_triggers (v : ProgressValue) (s t : ServerState)
    (hk : v.kind = "end")
    (hm : anyKeyword progressEndKeywords (strToLower v.message) = true)
    (hs : s.found_source_files = false ∨ s.analysis_complete = true) :
    (progress_notification ⟨v⟩ s).1.analysis_complete = true
  ∧ ∀ w : ProgressValue, w.kind ≠ "end" → (progress_notification ⟨w⟩ t).1 = t := by
  constructor
  · rcases hs with h | h
    · simp [progress_notification, hk, hm, h]
    · by_cases hf : s.found_source_files = true <;>
        simp [progress_notification, hk, hm, hf, h]
  · intro w hw
    simp [progress_notification, hw]

/-- Witness for C5: the message "building dependencies" with kind "end"
triggers readiness from the fresh state; with kind "begin" it does not. -/
theorem progress_end_keyword_triggers_witness :
    (progress_notification ⟨⟨"end", "building dependencies"⟩⟩ initState).1.analysis_complete = true
  ∧ (progress_notification ⟨⟨"begin", "building dependencies"⟩⟩ initState).1 = initState :=
  ⟨(progress_end_keyword_triggers ⟨"end", "building dependencies"⟩ initState initState
      rfl (by decide) (Or.inl rfl)).1,
   (progress_end_keyword_triggers ⟨"end", "building dependencies"⟩ initState initState
      rfl (by decide) (Or.inl rfl)).2 ⟨"begin", "building dependencies"⟩ (by decide)⟩

/-- C6: the workspace/configuration handler replies with exactly one
configuration entry per requested item, and every entry is the empty
configuration object. -/
theorem configuration_reply_preserves_item_count (params : ConfigurationParams) :
    (workspace_configuration_handler params).length = params.items.length
  ∧ ∀ c ∈ workspace_configuration_handler params, c = ([] : ConfigObject) := by
  constructor
  · simp [workspace_configuration_handler]
  · intro c hc
    exact List.eq_of_mem_replicate hc

/-- Witness for C6 at a request carrying three items. -/
theorem configuration_reply_preserves_item_count_witness :
    (workspace_configuration_handler { items := ["a", "b", "c"] }).length = 3
  ∧ ([] : ConfigObject) = ([] : ConfigObject) :=
  ⟨(configuration_reply_preserves_item_count { items := ["a", "b", "c"] }).1,
   (configuration_reply_preserves_item_count { items := ["a", "b", "c"] }).2
     ([] : ConfigObject) (by decide)⟩

/-- C7 counterexample: the code's keyword is "swift package resolved", not
"package resolved", so a log message containing "package resolved" (but not
the longer keyword) leaves the readiness signal unset. -/
theorem log_package_resolved_not_trigger :
    (window_log_message { message := "package resolved" } initState).1.analysis_complete
      = false := by
  decide

/-- C7 amended: a window/logMessage notification whose lowercased message
contains any of the code's completion keywords — "indexing complete",
"finished indexing", "build complete", "compilation finished", or
"swift package resolved" — sets the readiness signal (any one keyword
suffices). -/
theorem log_keywords_trigger (msg : LogMessageParams) (s : ServerState)
    (h : anyKeyword logMessageKeywords (strToLower msg.message) = true) :
    (window_log_message msg s).1.analysis_complete = true := by
  simp [window_log_message, h]

/-- Witness for the amended C7 at a concrete mixed-case message. -/
theorem log_keywords_trigger_witness :
    (window_log_message { message := "Indexing Complete." } initState).1.analysis_complete
      = true :=
  log_keywords_trigger { message := "Indexing Complete." } initState (by decide)

/-- C8 counterexample: the parameter document is not a function of the
workspace root alone — it embeds the ambient process id (os.getpid, line 63),
so two processes with the same root build different documents. -/
theorem init_params_differ_across_processes :
    getInitParams 1 "/repo" ≠ getInitParams 2 "/repo" := by
  decide

/-- C8 amended: the parameter document is a deterministic function of the
ambient process id and the workspace root: its processId field is exactly the
pid, and every other field depends only on the root path and static
configuration. -/
theorem init_params_pure_given_pid (pid pid2 : Nat) (root : String) :
    (getInitParams pid root).processId = pid
  ∧ { getInitParams pid root with processId := 0 } =
      { getInitParams pid2 root with processId := 0 } :=
  ⟨rfl, rfl⟩

/-- C9: `is_ignored_dirname` decides by exact string equality, not glob
matching: every listed literal (including the literal strings
"*.xcworkspace" and "*.xcodeproj") is ignored, any name the superclass
ignores is ignored, and every name outside the literal list — including real
Xcode directory names the wildcards appear intended to cover — gets exactly
the superclass's verdict. -/
theorem is_ignored_dirname_exact_equality (superIgnores : String → Bool) :
    (∀ d ∈ swiftIgnoredDirnames, is_ignored_dirname superIgnores d = true)
  ∧ (∀ d, superIgnores d = true → is_ignored_dirname superIgnores d = true)
  ∧ (∀ d, d ∉ swiftIgnoredDirnames → is_ignored_dirname superIgnores d = superIgnores d)
  ∧ is_ignored_dirname superIgnores "*.xcodeproj" = true
  ∧ is_ignored_dirname superIgnores "App.xcodeproj" = superIgnores "App.xcodeproj"
  ∧ is_ignored_dirname superIgnores "App.xcworkspace" = superIgnores "App.xcworkspace" := by
  have hmem : decide ("*.xcodeproj" ∈ swiftIgnoredDirnames) = true := by decide
  have hApp : decide ("App.xcodeproj" ∈ swiftIgnoredDirnames) = false := by decide
  have hApp2 : decide ("App.xcworkspace" ∈ swiftIgnoredDirnames) = false := by decide
  refine ⟨?_, ?_, ?_, ?_, ?_, ?_⟩
  · intro d hd
    simp [is_ignored_dirname, hd]
  · intro d hd
    simp [is_ignored_dirname, hd]
  · intro d hd
    simp [is_ignored_dirname, hd]
  · simp [is_ignored_dirname, hmem]
  · simp [is_ignored_dirname, hApp]
  · simp [is_ignored_dirname, hApp2]

/-- Witness for C9 with a superclass that ignores nothing. -/
theorem is_ignored_dirname_exact_equality_witness :
    is_ignored_dirname (fun _ => false) ".build" = true
  ∧ is_ignored_dirname (fun _ => false) "App.xcodeproj" = false := by
  constructor
  · exact (is_ignored_dirname_exact_equality (fun _ => false)).1 ".build" (by decide)
  · have h := (is_ignored_dirname_exact_equality (fun _ => false)).2.2.1
      "App.xcodeproj" (by decide)
    simpa using h

/-- C10: every step that sets the analysis-complete signal also sets the
completions-available signal: each handler preserves the implication
"analysis complete implies completions available", a matched handler also
records found_source_files, and `_start_server` preserves the implication in
any state it returns while never touching found_source_files (in particular
the timeout fallback does not set it). -/
theorem analysis_complete_couples_completions (n : Notification) (s : ServerState)
    (caps : List String)
    (h : s.analysis_complete = true → s.completions_available = true) :
    ((dispatch n s).analysis_complete = true → (dispatch n s).completions_available = true)
  ∧ (matchesRule n = true → (dispatch n s).found_source_files = true)
  ∧ (∀ s2, (startServer caps s).result = Except.ok s2 →
      (s2.analysis_complete = true → s2.completions_available = true)
      ∧ s2.found_source_files = s.found_source_files) := by
  refine ⟨fun ha => dispatch_completions n s h ha, fun hm => dispatch_found_of_matches n s hm, ?_⟩
  intro s2 hs2
  by_cases hc : "textDocumentSync" ∈ caps
  · by_cases hs : s.analysis_complete = true
    · simp [startServer, hc, hs] at hs2
      subst hs2
      exact ⟨h, rfl⟩
    · simp [startServer, hc, hs] at hs2
      subst hs2
      exact ⟨fun _ => rfl, rfl⟩
  · simp [startServer, hc] at hs2

/-- Witness for C10 at a matching log message from the fresh state. -/
theorem analysis_complete_couples_completions_witness :
    (dispatch (Notification.logMsg { message := "compilation finished" })
        initState).completions_available = true
  ∧ (dispatch (Notification.logMsg { message := "compilation finished" })
        initState).found_source_files = true :=
  ⟨(analysis_complete_couples_completions
      (Notification.logMsg { message := "compilation finished" }) initState
      ["textDocumentSync"] (by decide)).1 (by decide),
   (analysis_complete_couples_completions
      (Notification.logMsg { message := "compilation finished" }) initState
      ["textDocumentSync"] (by decide)).2.1 (by decide)⟩

end SwiftLS
